import Mathlib

/-!
Shallow embedding of the `env-type` Rust crate (src/types.rs, src/context.rs,
src/environment.rs, src/is_debug.rs) and proofs of its specification claims.

Modelling conventions:
* Rust `HashMap<K, V>` fields become functions `K → Option V`; `insert` is a
  pointwise functional update, which matches `HashMap::insert` semantics.
* Fallible operations return `Except`; strum's `FromStr` error becomes
  `ParseError`.
* The heterogeneous `TypeId`-keyed registry of `Environment` is embedded with
  a closed universe `Ty` of value-type codes: a `ContextMarker` type `M`
  becomes a `Marker` carrying its static identity (`TypeId` as a `Nat`) and
  the code of its associated value type, and the registry stores dependent
  pairs `(t : Ty) × Context t.denote`; `downcast_ref` becomes a decidable
  type-code comparison.
* The process environment (for `std::env::var`) is passed explicitly as a
  lookup function `String → Option String`.
-/

/-- `EnvType` from src/types.rs: the four deployment-environment tags.
`#[default]` marks `Dev`. -/
inductive EnvType where
  | Dev
  | Test
  | Stg
  | Prod
deriving DecidableEq, Repr

/-- The `#[default]` attribute on `Dev` in src/types.rs. -/
def EnvType.defaultTag : EnvType := .Dev

/-- strum's `FromStr` error (`strum::ParseError::VariantNotFound`). -/
inductive ParseError where
  | variantNotFound
deriving DecidableEq, Repr

/-- The `serialize` alias strings attached to each variant in src/types.rs. -/
def EnvType.aliases : EnvType → List String
  | .Dev => ["develop", "Develop", "dev", "Dev", "DEV", "d", "D"]
  | .Test => ["test", "Test", "TEST", "t", "T"]
  | .Stg => ["staging", "Staging", "stg", "Stg", "STG", "s", "S"]
  | .Prod => ["production", "Production", "prod", "Prod", "PROD", "p", "P"]

/-- `EnvType::from_str`, as generated by `strum::EnumString` from the
`serialize` attributes in src/types.rs: a string is mapped to the variant
whose alias list contains it, and any other string is a parse error. -/
def EnvType.fromStr (s : String) : Except ParseError EnvType :=
  if s ∈ EnvType.aliases .Dev then .ok .Dev
  else if s ∈ EnvType.aliases .Test then .ok .Test
  else if s ∈ EnvType.aliases .Stg then .ok .Stg
  else if s ∈ EnvType.aliases .Prod then .ok .Prod
  else .error .variantNotFound

/-- `EnvType::from_env_types::<S, K>` from src/types.rs:
`Self::from_str(&s.as_env_str::<K>()).unwrap_or_default()`. The `AsEnvStr`
source and key are abstracted to the string they produce. -/
def EnvType.from_env_types (s : String) : EnvType :=
  match EnvType.fromStr s with
  | .ok t => t
  | .error _ => EnvType.defaultTag

/-- The `AsEnvStr for EnvType` impl composed with `from_env_key`
(src/types.rs): `std::env::var(K::key()).unwrap_or_default()` fed to
`from_env_types`. The process environment is the explicit `envMap`. -/
def EnvType.from_process_env (envMap : String → Option String) (key : String) :
    EnvType :=
  EnvType.from_env_types ((envMap key).getD "")

/-- `EnvType::from_env_str` from src/types.rs:
`Self::from_str(t.as_env_type_str().unwrap_or_default().as_str()).unwrap_or_default()`.
The `AsEnvTypeStr` source is abstracted to the `Option String` it produces. -/
def EnvType.from_env_str (o : Option String) : EnvType :=
  match EnvType.fromStr (o.getD "") with
  | .ok t => t
  | .error _ => EnvType.defaultTag

/-- Modelled from the spec: the `EnvError` enum is imported from
`crate::types` by src/context.rs and src/environment.rs but its declaration
is not among the provided sources. Variants are taken from their use sites
(`EnvError::NoCurrentEnv`, `EnvError::ContextValueNotFound`) and §7 of the
spec (`MissingCurrentEnv`, `ValueNotFound`). -/
inductive EnvError where
  | NoCurrentEnv
  | ContextValueNotFound
deriving DecidableEq, Repr

/-- `Context<M>` from src/context.rs, with `M::Value` abstracted to `α`:
a per-tag value map plus an optional default. -/
structure Context (α : Type) where
  env_values : EnvType → Option α
  default : Option α

/-- `Context::get_for_env`: the entry for `env` if present, otherwise the
default (`.get(env).cloned().or_else(|| self.default.clone())`). -/
def Context.get_for_env {α : Type} (c : Context α) (env : EnvType) :
    Option α :=
  match c.env_values env with
  | some v => some v
  | none => c.default

/-- `Context::try_get_for_env`:
`self.get_for_env(env).ok_or(EnvError::ContextValueNotFound)`. -/
def Context.try_get_for_env {α : Type} (c : Context α) (env : EnvType) :
    Except EnvError α :=
  match c.get_for_env env with
  | some v => .ok v
  | none => .error .ContextValueNotFound

/-- `ContextBuilder<M>` from src/context.rs. -/
structure ContextBuilder (α : Type) where
  env_values : EnvType → Option α
  default : Option α

/-- The `Default` impl for `ContextBuilder`: empty map, no default. -/
def ContextBuilder.mkEmpty {α : Type} : ContextBuilder α :=
  { env_values := fun _ => none, default := none }

/-- `ContextBuilder::with_value`: `self.env_values.insert(env, value)`. -/
def ContextBuilder.with_value {α : Type} (b : ContextBuilder α)
    (env : EnvType) (value : α) : ContextBuilder α :=
  { b with env_values := fun e => if e = env then some value else b.env_values e }

/-- `ContextBuilder::with_values`: inserts `value` for each tag of `envs`
in order (`for env in envs { self.env_values.insert(env, value.clone()) }`). -/
def ContextBuilder.with_values {α : Type} (b : ContextBuilder α)
    (envs : List EnvType) (value : α) : ContextBuilder α :=
  envs.foldl (fun acc e => acc.with_value e value) b

/-- `ContextBuilder::with_default`: `self.default = Some(value)`. -/
def ContextBuilder.with_default {α : Type} (b : ContextBuilder α)
    (value : α) : ContextBuilder α :=
  { b with default := some value }

/-- `ContextBuilder::build`: moves the accumulated state into a `Context`;
it is total, so it cannot fail. -/
def ContextBuilder.build {α : Type} (b : ContextBuilder α) : Context α :=
  { env_values := b.env_values, default := b.default }

/-- Codes for the value types that contexts in this development carry; the
universe over which the heterogeneous registry of `Environment` is embedded. -/
inductive Ty where
  | bool
  | str
  | nat
  | int
deriving DecidableEq, Repr

/-- The Lean type denoted by a value-type code. -/
def Ty.denote : Ty → Type
  | .bool => Bool
  | .str => String
  | .nat => Nat
  | .int => Int

/-- A `ContextMarker` type `M` from src/context.rs: its static identity
(`TypeId::of::<M>`, as a `Nat`) together with the code of its associated
value type `M::Value`. Distinct marker types have distinct `id`s. -/
structure Marker where
  id : Nat
  ty : Ty
deriving DecidableEq

/-- `Environment` from src/environment.rs: the current tag plus the
`TypeId`-keyed registry `HashMap<TypeId, Box<dyn Any + Send + Sync>>`,
embedded as a map from identities to dependent pairs of a value-type code
and a context over its denotation. -/
structure Environment where
  current : EnvType
  contexts : Nat → Option ((t : Ty) × Context t.denote)

/-- `Environment::current_env`. -/
def Environment.current_env (e : Environment) : EnvType := e.current

/-- `Environment::context::<M>`:
`self.contexts.get(&TypeId::of::<M>()).and_then(|ctx| ctx.downcast_ref())`.
The downcast succeeds exactly when the stored value-type code matches the
marker's. -/
def Environment.context (e : Environment) (M : Marker) :
    Option (Context M.ty.denote) :=
  match e.contexts M.id with
  | none => none
  | some ⟨t, c⟩ => if h : t = M.ty then some (h ▸ c) else none

/-- `Environment::value::<M>`:
`self.context::<M>().and_then(|ctx| ctx.get_for_env(env))`. -/
def Environment.value (e : Environment) (M : Marker) (env : EnvType) :
    Option M.ty.denote :=
  (e.context M).bind fun ctx => ctx.get_for_env env

/-- `Environment::current_value::<M>`: `self.value::<M>(self.current_env())`. -/
def Environment.current_value (e : Environment) (M : Marker) :
    Option M.ty.denote :=
  e.value M e.current_env

/-- `EnvironmentBuilder` from src/environment.rs. -/
structure EnvironmentBuilder where
  current : Option EnvType
  contexts : Nat → Option ((t : Ty) × Context t.denote)

/-- The `#[derive(Default)]` impl for `EnvironmentBuilder`: no current tag,
empty registry. -/
def EnvironmentBuilder.mkEmpty : EnvironmentBuilder :=
  { current := none, contexts := fun _ => none }

/-- `EnvironmentBuilder::current_env`: `self.current = Some(env)`. -/
def EnvironmentBuilder.current_env (b : EnvironmentBuilder) (env : EnvType) :
    EnvironmentBuilder :=
  { b with current := some env }

/-- `EnvironmentBuilder::current_from`:
`self.current = Some(EnvType::from(config))`; the `From<T>` conversion is
passed explicitly. -/
def EnvironmentBuilder.current_from {σ : Type} (b : EnvironmentBuilder)
    (conv : σ → EnvType) (config : σ) : EnvironmentBuilder :=
  { b with current := some (conv config) }

/-- `EnvironmentBuilder::with_context::<M>`:
`self.contexts.insert(TypeId::of::<M>(), Box::new(context))`. -/
def EnvironmentBuilder.with_context (b : EnvironmentBuilder) (M : Marker)
    (context : Context M.ty.denote) : EnvironmentBuilder :=
  { b with
    contexts := fun id =>
      if id = M.id then some ⟨M.ty, context⟩ else b.contexts id }

/-- `EnvironmentBuilder::build`:
`let current = self.current.ok_or(EnvError::NoCurrentEnv)?; Ok(Environment { current, contexts: self.contexts })`. -/
def EnvironmentBuilder.build (b : EnvironmentBuilder) :
    Except EnvError Environment :=
  match b.current with
  | none => .error .NoCurrentEnv
  | some current => .ok { current := current, contexts := b.contexts }

/-- `IsDebugContext` from src/is_debug.rs, a marker whose value type is
`bool`; its static identity in this development is `0`. -/
def IsDebugContext : Marker := { id := 0, ty := .bool }

/-- `debug_context` from src/is_debug.rs:
`ContextBuilder::<IsDebugContext>::default().with_value(EnvType::Dev, true).with_default(false)`. -/
def debug_context : ContextBuilder Bool :=
  (ContextBuilder.mkEmpty.with_value .Dev true).with_default false

/-- The `IsDebug for Environment` impl from src/is_debug.rs:
`self.current_value::<IsDebugContext>().unwrap_or(false)`. -/
def Environment.is_debug (e : Environment) : Bool :=
  (e.current_value IsDebugContext).getD false

/-- A single `with_context` registration: a context key together with a
context of its value type. -/
def Registration : Type := (M : Marker) × Context M.ty.denote

/-- Registers a list of contexts on a builder, in order, via `with_context`. -/
def applyRegs (b : EnvironmentBuilder) : List Registration → EnvironmentBuilder
  | [] => b
  | r :: rs => applyRegs (b.with_context r.1 r.2) rs

/-- Concrete contexts used by witness theorems. -/
def boolCtx : Context Bool := (ContextBuilder.mkEmpty.with_default true).build

def strCtx : Context String :=
  (ContextBuilder.mkEmpty.with_value .Dev "dev-url").build

def natCtx : Context Nat :=
  ((ContextBuilder.mkEmpty.with_value .Dev 7).with_default 3).build

def natCtx2 : Context Nat := (ContextBuilder.mkEmpty.with_default 9).build

/-! Helper lemmas shared by the claim theorems. -/

/-- No string is an alias of two distinct tags (the alias sets of §4.1 are
pairwise disjoint). -/
lemma aliases_pairwise_disjoint : ∀ t1 t2 : EnvType, t1 ≠ t2 →
    ∀ x ∈ EnvType.aliases t1, x ∉ EnvType.aliases t2 := by
  intro t1 t2 h x hx
  cases t1 <;> cases t2 <;> revert hx <;>
    first
      | exact absurd rfl h
      | (revert x; decide)

/-- `EnvType.fromStr` succeeds with tag `t` exactly on the alias strings of
`t`. -/
lemma fromStr_eq_ok_iff (s : String) (t : EnvType) :
    EnvType.fromStr s = .ok t ↔ s ∈ EnvType.aliases t := by
  unfold EnvType.fromStr
  by_cases h1 : s ∈ EnvType.aliases .Dev
  · rw [if_pos h1]
    cases t <;> simp_all
    · exact aliases_pairwise_disjoint .Dev .Test (by decide) s h1
    · exact aliases_pairwise_disjoint .Dev .Stg (by decide) s h1
    · exact aliases_pairwise_disjoint .Dev .Prod (by decide) s h1
  · rw [if_neg h1]
    by_cases h2 : s ∈ EnvType.aliases .Test
    · rw [if_pos h2]
      cases t <;> simp_all
      · exact aliases_pairwise_disjoint .Test .Stg (by decide) s h2
      · exact aliases_pairwise_disjoint .Test .Prod (by decide) s h2
    · rw [if_neg h2]
      by_cases h3 : s ∈ EnvType.aliases .Stg
      · rw [if_pos h3]
        cases t <;> simp_all
        exact aliases_pairwise_disjoint .Stg .Prod (by decide) s h3
      · rw [if_neg h3]
        by_cases h4 : s ∈ EnvType.aliases .Prod
        · rw [if_pos h4]
          cases t <;> simp_all
        · rw [if_neg h4]
          cases t <;> simp_all

/-- `EnvType.fromStr` fails exactly on strings that are an alias of no tag. -/
lemma fromStr_eq_error_iff (s : String) :
    EnvType.fromStr s = .error .variantNotFound ↔ ∀ t, s ∉ EnvType.aliases t := by
  unfold EnvType.fromStr
  by_cases h1 : s ∈ EnvType.aliases .Dev
  · simp only [if_pos h1]
    constructor
    · intro h; cases h
    · intro h; exact absurd h1 (h .Dev)
  · rw [if_neg h1]
    by_cases h2 : s ∈ EnvType.aliases .Test
    · simp only [if_pos h2]
      constructor
      · intro h; cases h
      · intro h; exact absurd h2 (h .Test)
    · rw [if_neg h2]
      by_cases h3 : s ∈ EnvType.aliases .Stg
      · simp only [if_pos h3]
        constructor
        · intro h; cases h
        · intro h; exact absurd h3 (h .Stg)
      · rw [if_neg h3]
        by_cases h4 : s ∈ EnvType.aliases .Prod
        · simp only [if_pos h4]
          constructor
          · intro h; cases h
          · intro h; exact absurd h4 (h .Prod)
        · rw [if_neg h4]
          constructor
          · intro _ t
            cases t
            · exact h1
            · exact h2
            · exact h3
            · exact h4
          · intro _; rfl

/-- Every registry entry produced by a sequence of `with_context` calls is
either one of the registered pairs, stored under its key's identity, or was
already present on the starting builder. -/
lemma applyRegs_contexts_mem (regs : List Registration)
    (b : EnvironmentBuilder) (id : Nat) (entry : (t : Ty) × Context t.denote)
    (h : (applyRegs b regs).contexts id = some entry) :
    (∃ r ∈ regs, r.1.id = id ∧ entry = ⟨r.1.ty, r.2⟩) ∨
      b.contexts id = some entry := by
  induction regs generalizing b with
  | nil => exact Or.inr h
  | cons r rs ih =>
    rcases ih _ h with hmem | hb
    · rcases hmem with ⟨r', hr', hid, he⟩
      exact Or.inl ⟨r', List.mem_cons_of_mem _ hr', hid, he⟩
    · by_cases hid : id = r.1.id
      · subst hid
        refine Or.inl ⟨r, List.mem_cons_self _ _, rfl, ?_⟩
        rw [EnvironmentBuilder.with_context] at hb
        change (if r.fst.id = r.fst.id then some ⟨r.fst.ty, r.snd⟩
          else b.contexts r.fst.id) = some entry at hb
        rw [if_pos rfl] at hb
        exact (Option.some.inj hb).symm
      · refine Or.inr ?_
        rw [EnvironmentBuilder.with_context] at hb
        simpa only [if_neg hid] using hb

/-- C1: each registry entry of a built `Environment` is keyed by the static
identity of a context key and stores exactly a context of that key's value
type; hence registering contexts for two keys of distinct static identities
allows independent retrieval of each via `context`, and registering the
same key twice keeps only the last context. -/
theorem env_registry_typed_independent_and_last_wins
    (M1 M2 M : Marker) (hne : M1.id ≠ M2.id) (t : EnvType)
    (c1 : Context M1.ty.denote) (c2 : Context M2.ty.denote)
    (c c' : Context M.ty.denote) :
    (∀ regs id entry,
      (applyRegs EnvironmentBuilder.mkEmpty regs).contexts id = some entry →
        ∃ r ∈ regs, r.1.id = id ∧ entry = ⟨r.1.ty, r.2⟩) ∧
    (∃ env, (((EnvironmentBuilder.mkEmpty.current_env t).with_context M1 c1).with_context
        M2 c2).build = .ok env ∧
      env.context M1 = some c1 ∧ env.context M2 = some c2) ∧
    (∃ env, (((EnvironmentBuilder.mkEmpty.current_env t).with_context M c).with_context
        M c').build = .ok env ∧ env.context M = some c') := by
  refine ⟨?_, ?_, ?_⟩
  · intro regs id entry h
    rcases applyRegs_contexts_mem regs _ id entry h with hmem | hb
    · exact hmem
    · simp [EnvironmentBuilder.mkEmpty] at hb
  · refine ⟨_, rfl, ?_, ?_⟩
    · simp [Environment.context, EnvironmentBuilder.with_context,
        EnvironmentBuilder.current_env, EnvironmentBuilder.mkEmpty, hne]
    · simp [Environment.context, EnvironmentBuilder.with_context,
        EnvironmentBuilder.current_env, EnvironmentBuilder.mkEmpty]
  · refine ⟨_, rfl, ?_⟩
    simp [Environment.context, EnvironmentBuilder.with_context,
      EnvironmentBuilder.current_env, EnvironmentBuilder.mkEmpty]

/-- Witness for C1 at two concrete keys of distinct identities and value
types `Bool` and `String`. -/
theorem env_registry_typed_independent_and_last_wins_w :
    (Marker.mk 0 .bool).id ≠ (Marker.mk 1 .str).id ∧
    (∃ env, (((EnvironmentBuilder.mkEmpty.current_env .Dev).with_context
        (Marker.mk 0 .bool) boolCtx).with_context (Marker.mk 1 .str) strCtx).build =
          .ok env ∧
      env.context (Marker.mk 0 .bool) = some boolCtx ∧
      env.context (Marker.mk 1 .str) = some strCtx) :=
  ⟨by decide,
    (env_registry_typed_independent_and_last_wins (Marker.mk 0 .bool)
      (Marker.mk 1 .str) (Marker.mk 2 .nat) (by decide) .Dev boolCtx strCtx
      natCtx natCtx2).2.1⟩

/-- C2: `Context.get_for_env` returns the per-tag entry when present,
otherwise the default when present, otherwise `none`; in particular a
context built with entry `(t, v)` and default `d` returns `v` for `t` and
`d` for every other tag. -/
theorem context_get_entry_else_default {α : Type} (c : Context α)
    (t t' : EnvType) (v d : α) (hne : t' ≠ t) :
    (∀ w, c.env_values t = some w → c.get_for_env t = some w) ∧
    (c.env_values t = none → c.get_for_env t = c.default) ∧
    (c.env_values t = none → c.default = none → c.get_for_env t = none) ∧
    (((ContextBuilder.mkEmpty.with_value t v).with_default d).build.get_for_env t =
      some v) ∧
    (((ContextBuilder.mkEmpty.with_value t v).with_default d).build.get_for_env t' =
      some d) := by
  refine ⟨?_, ?_, ?_, ?_, ?_⟩
  · intro w hw
    simp [Context.get_for_env, hw]
  · intro hn
    simp [Context.get_for_env, hn]
  · intro hn hd
    simp [Context.get_for_env, hn, hd]
  · simp [Context.get_for_env, ContextBuilder.build, ContextBuilder.with_value,
      ContextBuilder.with_default, ContextBuilder.mkEmpty]
  · simp [Context.get_for_env, ContextBuilder.build, ContextBuilder.with_value,
      ContextBuilder.with_default, ContextBuilder.mkEmpty, hne]

/-- Witness for C2 at a concrete `Nat` context with entry `(Dev, 7)` and
default `3`, probed at `Dev` and at `Prod`. -/
theorem context_get_entry_else_default_w :
    (EnvType.Prod ≠ EnvType.Dev) ∧
    (((ContextBuilder.mkEmpty.with_value .Dev (7 : Nat)).with_default 3).build.get_for_env
        .Dev = some 7) ∧
    (((ContextBuilder.mkEmpty.with_value .Dev (7 : Nat)).with_default 3).build.get_for_env
        .Prod = some 3) :=
  ⟨by decide,
    (context_get_entry_else_default natCtx .Dev .Prod 7 3 (by decide)).2.2.2.1,
    (context_get_entry_else_default natCtx .Dev .Prod 7 3 (by decide)).2.2.2.2⟩

/-- C3: `EnvType.fromStr` succeeds with tag `t` exactly on the alias strings
listed for `t` in §4.1, and yields a parse error exactly on the strings,
the empty string included, that are an alias of no tag. -/
theorem envType_parse_alias_table :
    (∀ s t, EnvType.fromStr s = .ok t ↔ s ∈ EnvType.aliases t) ∧
    (∀ s, EnvType.fromStr s = .error .variantNotFound ↔
      ∀ t, s ∉ EnvType.aliases t) :=
  ⟨fromStr_eq_ok_iff, fromStr_eq_error_iff⟩

/-- Witness for C3 at the concrete strings `"staging"`, `""` and `"qa"`. -/
theorem envType_parse_alias_table_w :
    EnvType.fromStr "staging" = .ok .Stg ∧
    EnvType.fromStr "" = .error .variantNotFound ∧
    EnvType.fromStr "qa" = .error .variantNotFound :=
  ⟨(envType_parse_alias_table.1 "staging" .Stg).mpr (by decide),
    (envType_parse_alias_table.2 "").mpr (by intro t; cases t <;> decide),
    (envType_parse_alias_table.2 "qa").mpr (by intro t; cases t <;> decide)⟩

/-- C4: `EnvironmentBuilder.build` fails with the missing-current-tag error
(`NoCurrentEnv`, the spec's `MissingCurrentEnv`) exactly when no current tag
was set, and succeeds whenever `current_env` or `current_from` set one,
regardless of the registered contexts. -/
theorem environment_build_requires_current (b : EnvironmentBuilder)
    (t : EnvType) {σ : Type} (conv : σ → EnvType) (cfg : σ) :
    (b.current = none → b.build = .error .NoCurrentEnv) ∧
    (∀ u, b.current = some u → b.build = .ok ⟨u, b.contexts⟩) ∧
    ((b.current_env t).build = .ok ⟨t, b.contexts⟩) ∧
    ((b.current_from conv cfg).build = .ok ⟨conv cfg, b.contexts⟩) := by
  refine ⟨?_, ?_, ?_, ?_⟩
  · intro h
    simp [EnvironmentBuilder.build, h]
  · intro u h
    simp [EnvironmentBuilder.build, h]
  · rfl
  · rfl

/-- Witness for C4 at the empty builder, with the tag set to `Test` for the
success half. -/
theorem environment_build_requires_current_w :
    (EnvironmentBuilder.mkEmpty.current = none) ∧
    (EnvironmentBuilder.mkEmpty.build = .error .NoCurrentEnv) ∧
    ((EnvironmentBuilder.mkEmpty.current_env .Test).build =
      .ok ⟨.Test, EnvironmentBuilder.mkEmpty.contexts⟩) :=
  ⟨rfl,
    (environment_build_requires_current EnvironmentBuilder.mkEmpty .Test
      (fun (_ : Unit) => .Prod) ()).1 rfl,
    (environment_build_requires_current EnvironmentBuilder.mkEmpty .Test
      (fun (_ : Unit) => .Prod) ()).2.2.1⟩

/-- C5: `Context.try_get_for_env` agrees with `get_for_env` whenever the
latter yields a value, and signals the value-not-found error
(`ContextValueNotFound`, the spec's `ValueNotFound`) exactly when
`get_for_env` yields `none`. -/
theorem context_try_get_matches_get {α : Type} (c : Context α) (t : EnvType) :
    (∀ v, c.get_for_env t = some v → c.try_get_for_env t = .ok v) ∧
    (c.get_for_env t = none ↔
      c.try_get_for_env t = .error .ContextValueNotFound) := by
  constructor
  · intro v h
    simp [Context.try_get_for_env, h]
  · cases h : c.get_for_env t <;> simp [Context.try_get_for_env, h]

/-- Witness for C5: a context with default `9` yields `ok 9`, and the empty
context yields the value-not-found error. -/
theorem context_try_get_matches_get_w :
    (natCtx2.get_for_env .Stg = some 9) ∧
    (natCtx2.try_get_for_env .Stg = .ok 9) ∧
    ((ContextBuilder.mkEmpty.build : Context Nat).try_get_for_env .Dev =
      .error .ContextValueNotFound) :=
  ⟨rfl,
    (context_try_get_matches_get natCtx2 .Stg).1 9 rfl,
    (context_try_get_matches_get (ContextBuilder.mkEmpty.build : Context Nat)
      .Dev).2.mp rfl⟩

/-- C6: `Environment.value` is the composition of `context` and
`get_for_env` — it returns `context M |>.get_for_env t` when a context for
`M` is registered and `none` otherwise — and `current_value` is `value` at
the current tag. -/
theorem environment_value_shorthand (e : Environment) (M : Marker)
    (t : EnvType) :
    (∀ ctx, e.context M = some ctx → e.value M t = ctx.get_for_env t) ∧
    (e.context M = none → e.value M t = none) ∧
    (e.current_value M = e.value M e.current_env) := by
  refine ⟨?_, ?_, rfl⟩
  · intro ctx h
    simp [Environment.value, h]
  · intro h
    simp [Environment.value, h]

/-- Witness for C6 at a concrete environment holding `natCtx` under identity
`5`, probed with the registered key and an unregistered one. -/
theorem environment_value_shorthand_w :
    ((Environment.mk .Dev fun id => if id = 5 then some ⟨.nat, natCtx⟩ else none).value
        (Marker.mk 5 .nat) .Dev = natCtx.get_for_env .Dev) ∧
    ((Environment.mk .Dev fun id => if id = 5 then some ⟨.nat, natCtx⟩ else none).value
        (Marker.mk 6 .nat) .Dev = none) :=
  ⟨(environment_value_shorthand
      (Environment.mk .Dev fun id => if id = 5 then some ⟨.nat, natCtx⟩ else none)
      (Marker.mk 5 .nat) .Dev).1 natCtx rfl,
    (environment_value_shorthand
      (Environment.mk .Dev fun id => if id = 5 then some ⟨.nat, natCtx⟩ else none)
      (Marker.mk 6 .nat) .Dev).2.1 rfl⟩

/-- C7: composing a string source with the tag parser yields the tag of any
alias and falls back to the default tag `Dev`, without error, on an
unparsable string, the empty string, or an unset key. -/
theorem tag_adapters_default_on_missing :
    (∀ s t, EnvType.fromStr s = .ok t → EnvType.from_env_types s = t) ∧
    (∀ s e, EnvType.fromStr s = .error e → EnvType.from_env_types s = .Dev) ∧
    (EnvType.from_env_types "" = .Dev) ∧
    (∀ m k, m k = none → EnvType.from_process_env m k = .Dev) ∧
    (∀ m k s t, m k = some s → s ∈ EnvType.aliases t →
      EnvType.from_process_env m k = t) := by
  have hok : ∀ s t, EnvType.fromStr s = .ok t → EnvType.from_env_types s = t := by
    intro s t h
    simp [EnvType.from_env_types, h]
  have hempty : EnvType.from_env_types "" = .Dev := rfl
  refine ⟨hok, ?_, hempty, ?_, ?_⟩
  · intro s e h
    simp [EnvType.from_env_types, h, EnvType.defaultTag]
  · intro m k h
    simp only [EnvType.from_process_env, h, Option.getD_none]
    exact hempty
  · intro m k s t h hs
    simp only [EnvType.from_process_env, h, Option.getD_some]
    exact hok s t ((fromStr_eq_ok_iff s t).mpr hs)

/-- Witness for C7: a process environment with `ENV="Production"` yields
`Prod`; one with `ENV` unset yields `Dev`. -/
theorem tag_adapters_default_on_missing_w :
    ((fun _ : String => some "Production") "ENV" = some "Production") ∧
    ("Production" ∈ EnvType.aliases .Prod) ∧
    (EnvType.from_process_env (fun _ => some "Production") "ENV" = .Prod) ∧
    (EnvType.from_process_env (fun _ => none) "ENV" = .Dev) :=
  ⟨rfl, by decide,
    tag_adapters_default_on_missing.2.2.2.2 (fun _ => some "Production") "ENV"
      "Production" .Prod rfl (by decide),
    tag_adapters_default_on_missing.2.2.2.1 (fun _ => none) "ENV" rfl⟩

/-- C8: `debug_context` maps `Dev` to `true` with default `false`, and
`is_debug` returns the current boolean of the debug context — `true` at
`Dev`, `false` at any other tag, and `false` when no debug context is
registered. -/
theorem debug_context_semantics (t : EnvType) (hne : t ≠ .Dev)
    (e : Environment) (hnone : e.context IsDebugContext = none) :
    (debug_context.build.env_values .Dev = some true) ∧
    (debug_context.build.default = some false) ∧
    (∀ env, ((EnvironmentBuilder.mkEmpty.current_env .Dev).with_context IsDebugContext
        debug_context.build).build = .ok env → env.is_debug = true) ∧
    (∀ env, ((EnvironmentBuilder.mkEmpty.current_env t).with_context IsDebugContext
        debug_context.build).build = .ok env → env.is_debug = false) ∧
    (e.is_debug = false) := by
  refine ⟨rfl, rfl, ?_, ?_, ?_⟩
  · intro env h
    cases h
    rfl
  · intro env h
    cases h
    simp [Environment.is_debug, Environment.current_value, Environment.value,
      Environment.context, Environment.current_env, EnvironmentBuilder.with_context,
      EnvironmentBuilder.current_env, EnvironmentBuilder.mkEmpty, IsDebugContext,
      Context.get_for_env, debug_context, ContextBuilder.build,
      ContextBuilder.with_value, ContextBuilder.with_default,
      ContextBuilder.mkEmpty, hne]
  · simp [Environment.is_debug, Environment.current_value, Environment.value, hnone]

/-- Witness for C8 at `t = Prod` and an environment with an empty registry. -/
theorem debug_context_semantics_w :
    (EnvType.Prod ≠ EnvType.Dev) ∧
    ((Environment.mk .Dev fun _ => none).context IsDebugContext = none) ∧
    (∀ env, ((EnvironmentBuilder.mkEmpty.current_env .Prod).with_context IsDebugContext
        debug_context.build).build = .ok env → env.is_debug = false) ∧
    ((Environment.mk .Dev fun _ => none).is_debug = false) :=
  ⟨by decide, rfl,
    (debug_context_semantics .Prod (by decide) (Environment.mk .Dev fun _ => none)
      rfl).2.2.2.1,
    (debug_context_semantics .Prod (by decide) (Environment.mk .Dev fun _ => none)
      rfl).2.2.2.2⟩

/-- C9: within one `ContextBuilder`, `with_value` records or overwrites the
entry for a tag with the later call winning, `with_values` applies
`with_value` to each tag in order so that an empty tag collection leaves
the builder unchanged, and `build` is total. -/
theorem context_builder_set_semantics {α : Type} (b : ContextBuilder α)
    (t : EnvType) (v v' w : α) (envs : List EnvType) :
    ((b.with_value t v).build.env_values t = some v) ∧
    (((b.with_value t v).with_value t v').build.env_values t = some v') ∧
    (b.with_values [] w = b) ∧
    (b.with_values envs w = envs.foldl (fun acc e => acc.with_value e w) b) ∧
    ((b.with_values [] w).build = b.build) := by
  refine ⟨?_, ?_, rfl, rfl, rfl⟩
  · simp [ContextBuilder.build, ContextBuilder.with_value]
  · simp [ContextBuilder.build, ContextBuilder.with_value]

/-- C10: `from_env_str` maps a source producing no string at all to the
default tag `Dev`, identically to a source producing the empty string. -/
theorem from_env_str_missing_is_default :
    EnvType.from_env_str none = EnvType.Dev ∧
    EnvType.from_env_str none = EnvType.from_env_str (some "") :=
  ⟨rfl, rfl⟩
